import Mathlib

/-!
# Verification of the czsl continual-learning trainers

Shallow embedding of the two task trainers of the `czsl` repository:

* `src/trainers/ewc_task_trainer.py` — `EWCTaskTrainer.compute_regularization`;
* `src/trainers/lat_gm_task_trainer.py` — `LatGMTaskTrainer._after_init_hook`,
  `train_on_batch`, `generator_step`, `gen_knowledge_distillation_loss` and
  `perform_optim_step`.

Tensors are modelled as `List ℚ` (flattened, exact arithmetic), Python ints
as `ℤ` or `ℕ`, and the stochastic dropout mask of `torch.nn.functional.dropout`
is passed in explicitly as a `List Bool` of per-component drop decisions.
Side-effecting training code is modelled by the trace of the steps it executes.
-/

namespace Czsl

/-! ## Tensor helpers (torch / numpy / Python semantics) -/

/-- `torch.dot` on two flattened tensors: sum of elementwise products.
(torch requires equal lengths; `zipWith` truncates to the shorter list,
which agrees with torch whenever the lengths match.) -/
def dot (a b : List ℚ) : ℚ :=
  (List.zipWith (fun x y => x * y) a b).sum

/-- Python slice `x[:-k]`.  Note the Python quirk: for `k = 0` the slice
`x[:-0] = x[:0]` is empty. -/
def pyDropLast {α : Type} (x : List α) (k : ℕ) : List α :=
  if k = 0 then [] else x.take (x.length - k)

/-- Python slice `x[-k:]`.  For `k = 0` it is `x[0:] = x`. -/
def pyTakeLast {α : Type} (x : List α) (k : ℕ) : List α :=
  if k = 0 then x else x.drop (x.length - k)

/-- `torch.nn.functional.dropout(x, p)` in training mode (the default):
every component is independently zeroed with probability `p`, and each
surviving component is rescaled by `1 / (1 - p)` (inverted dropout).
The random Bernoulli(`p`) drop decisions are passed in as `dropMask`
(`true` = the component is zeroed). -/
def F_dropout (p : ℚ) (dropMask : List Bool) (x : List ℚ) : List ℚ :=
  List.zipWith (fun d v => if d then 0 else v / (1 - p)) dropMask x

/-- `np.tile(xs, n)`: the list `xs` repeated `n` times end to end. -/
def np_tile (xs : List ℕ) (n : ℕ) : List ℕ :=
  (List.replicate n xs).flatten

/-- Squared L2 norm of one row: `torch.norm(row, dim=1).pow(2)` in exact
arithmetic (the square root composed with the square cancels). -/
def sumSq (v : List ℚ) : ℚ :=
  (v.map (fun a => a ^ 2)).sum

/-- Python numeric coercion of a `bool`: `float(True) = 1.0`,
`float(False) = 0.0`. -/
def pyFloatOfBool (b : Bool) : ℚ :=
  if b then 1 else 0

/-! ## `EWCTaskTrainer.compute_regularization`

```python
def compute_regularization(self) -> Tensor:
    head_size = self.model.get_head_size()
    keep_prob = self.config.hp.get('fisher_keep_prob', 1.)
    weights_curr = torch.cat([p.view(-1) for p in self.model.parameters()])

    if keep_prob < 1:
        # Do not apply dropout to the classification head (TODO: why?)
        body_fisher = F.dropout(self.fisher[:-head_size], keep_prob)
        head_fisher = self.fisher[-head_size:]
        fisher = torch.cat([body_fisher, head_fisher])
    else:
        fisher = self.fisher

    reg = torch.dot((weights_curr - self.weights_prev).pow(2), fisher)

    return reg
```

`keep_prob` is the configured `fisher_keep_prob` (default `1.`); the source
passes it directly as the `p` argument of `F.dropout`, i.e. as the *drop*
probability. -/

def compute_regularization (head_size : ℕ) (keep_prob : ℚ) (dropMask : List Bool)
    (fisher weights_curr weights_prev : List ℚ) : ℚ :=
  dot (List.zipWith (fun c p => (c - p) ^ 2) weights_curr weights_prev)
    (if keep_prob < 1 then
      F_dropout keep_prob dropMask (pyDropLast fisher head_size)
        ++ pyTakeLast fisher head_size
    else
      fisher)

/-! ## `LatGMTaskTrainer.train_on_batch` and `generator_step`

```python
def train_on_batch(self, batch):
    self.model.train()
    ...
    if self.num_epochs_done < self.config.hp.num_gan_epochs:
        self.generator_step(y)
        self.discriminator_step(x, y)
    else:
        self.classifier_step(x, y)

    # self.creativity_step()
```

The call to `creativity_step` is commented out in the source, so the trace
of a batch never contains it.  `generator_step` begins with

```python
def generator_step(self, y: Tensor):
    if self.num_iters_done % self.config.hp.num_discr_steps_per_gen_step != 0: return
```

so the generator update is a no-op unless the iteration counter is a
multiple of `num_discr_steps_per_gen_step`. -/

/-- The optimizer-update steps a batch can trigger. -/
inductive TrainStep
  | generatorStep
  | discriminatorStep
  | classifierStep
  | creativityStep
deriving DecidableEq, Repr

/-- The configuration fields read by `train_on_batch` (plus the
`creativity.*` block, which it never reads). -/
structure TrainHP where
  num_gan_epochs : ℕ
  num_discr_steps_per_gen_step : ℕ
  creativity_enabled : Bool
  creativity_start_iter : ℕ
deriving Repr

/-- The mutable counters of the trainer consulted by `train_on_batch`. -/
structure TrainerState where
  num_epochs_done : ℕ
  num_iters_done : ℕ
deriving Repr

/-- The early-return guard of `generator_step`:
`if self.num_iters_done % k != 0: return`.  `true` means the generator
update is actually performed. -/
def generator_step_runs (num_iters_done num_discr_steps_per_gen_step : ℕ) : Bool :=
  if num_iters_done % num_discr_steps_per_gen_step != 0 then false else true

/-- The ordered trace of optimizer-update steps executed by one call of
`train_on_batch`. -/
def train_on_batch (hp : TrainHP) (st : TrainerState) : List TrainStep :=
  if st.num_epochs_done < hp.num_gan_epochs then
    (if generator_step_runs st.num_iters_done hp.num_discr_steps_per_gen_step then
      [TrainStep.generatorStep]
    else []) ++ [TrainStep.discriminatorStep]
  else
    [TrainStep.classifierStep]

/-! ## `LatGMTaskTrainer._after_init_hook`

```python
def _after_init_hook(self):
    prev_trainer = self.get_previous_trainer()

    attrs = self.model.attrs if hasattr(self.model, 'attrs') else None
    self.prev_model = self.BaseModel(self.config.hp.model, attrs).to(self.device_name)
    self.prev_model.load_state_dict(deepcopy(self.model.state_dict()))

    if self.config.hp.get('reset_head_before_each_task'):
        self.model.reset_discriminator()

    self.learned_classes = ...
    ...

    if not prev_trainer is None:
        self.weights_prev = torch.cat([p.data.view(-1) for p in self.model.embedder.parameters()])

        if self.config.hp.reg_strategy == 'mas':
            self.mse_grad = compute_mse_grad(...)
        elif self.config.hp.reg_strategy == 'ewc':
            self.fisher = compute_diagonal_fisher(...)
        else:
            raise NotImplementedError(f'Unknown regularization strategy: ...')
```

Modelled as the ordered list of actions the hook performs. -/

/-- Actions performed by `_after_init_hook`, in program order. -/
inductive InitAction
  | snapshotPrevModel
  | resetDiscriminator
  | computeMasks
  | snapshotEmbedderWeights
  | computeMseGrad
  | computeFisher
  | raiseUnknownStrategy
deriving DecidableEq, Repr

/-- The configuration fields read by `_after_init_hook`. -/
structure InitHP where
  reg_strategy : String
  reset_head_before_each_task : Bool
deriving Repr

/-- Modelled from the spec: `TaskTrainer.get_previous_trainer` (base-trainer
code outside the provided sources) returns the immediately preceding task
trainer, "or none for the first task".  We model only its noneness, which is
all `_after_init_hook` branches on. -/
def get_previous_trainer_is_none (task_idx : ℕ) : Bool :=
  task_idx == 0

/-- The ordered action trace of `_after_init_hook` for a trainer at task
index `task_idx`. -/
def after_init_hook_actions (hp : InitHP) (task_idx : ℕ) : List InitAction :=
  [InitAction.snapshotPrevModel]
    ++ (if hp.reset_head_before_each_task then [InitAction.resetDiscriminator] else [])
    ++ [InitAction.computeMasks]
    ++ (if get_previous_trainer_is_none task_idx then
          []
        else
          [InitAction.snapshotEmbedderWeights]
            ++ (if hp.reg_strategy = "mas" then [InitAction.computeMseGrad]
                else if hp.reg_strategy = "ewc" then [InitAction.computeFisher]
                else [InitAction.raiseUnknownStrategy]))

/-- A task trainer's lifecycle: the init hook runs once, before any batch;
if it raises (`NotImplementedError` for an unknown `reg_strategy`), no batch
is ever processed; otherwise every batch produces its step trace. -/
def trainer_run (ihp : InitHP) (thp : TrainHP) (task_idx : ℕ)
    (batches : List TrainerState) : Except String (List (List TrainStep)) :=
  if InitAction.raiseUnknownStrategy ∈ after_init_hook_actions ihp task_idx then
    Except.error ("Unknown regularization strategy: " ++ ihp.reg_strategy)
  else
    Except.ok (batches.map (train_on_batch thp))

/-! ## `LatGMTaskTrainer.gen_knowledge_distillation_loss`

```python
def gen_knowledge_distillation_loss(self) -> Tensor:
    if len(self.learned_classes) == 0: return torch.tensor(0.)

    num_samples_per_class = self.config.hp.distill_batch_size // len(self.learned_classes)
    assert num_samples_per_class >= 0, "Distillation batch size is too small to capture all the classes."
    y = np.tile(np.array(self.learned_classes), num_samples_per_class)
    y = torch.tensor(y).to(self.device_name)
    z = self.model.generator.sample_noise(len(y)).to(self.device_name)
    outputs_teacher = self.prev_model.generator(z, y).view(len(y), -1)
    outputs_student = self.model.generator(z, y).view(len(y), -1)
    loss = torch.norm(outputs_teacher - outputs_student, dim=1).pow(2).mean()

    return loss / len(self.learned_classes)
```

Python `//` on ints is floor division (`Int.fdiv`).  The generator outputs
are abstracted as functions from the row index to the output row (row `i`
is determined by the sampled noise `z[i]` and the label `y[i]`); the frozen
teacher is `teacher_row`, the live generator is `student_row`.
`torch.mean` of an *empty* tensor is `nan`, modelled by a dedicated result
constructor. -/

/-- Result of `gen_knowledge_distillation_loss`: a finite loss value, a NaN
produced by averaging an empty tensor, or an `AssertionError`. -/
inductive DistillLossResult
  | ok (loss : ℚ)
  | nanLoss
  | assertError (msg : String)
deriving DecidableEq, Repr

/-- Shallow embedding of `gen_knowledge_distillation_loss`. -/
def gen_knowledge_distillation_loss (learned_classes : List ℕ)
    (distill_batch_size : ℤ) (teacher_row student_row : ℕ → List ℚ) :
    DistillLossResult :=
  if learned_classes.length = 0 then
    DistillLossResult.ok 0
  else
    let num_samples_per_class : ℤ :=
      Int.fdiv distill_batch_size (learned_classes.length : ℤ)
    if 0 ≤ num_samples_per_class then
      let y : List ℕ := np_tile learned_classes num_samples_per_class.toNat
      let rowLosses : List ℚ :=
        (List.range y.length).map
          (fun i => sumSq (List.zipWith (fun a b => a - b) (teacher_row i) (student_row i)))
      if rowLosses.length = 0 then
        DistillLossResult.nanLoss
      else
        DistillLossResult.ok
          ((rowLosses.sum / (rowLosses.length : ℚ)) / (learned_classes.length : ℚ))
    else
      DistillLossResult.assertError
        "Distillation batch size is too small to capture all the classes."

/-! ## `LatGMTaskTrainer.perform_optim_step` (gradient clipping)

```python
def perform_optim_step(self, loss, module_name: str, retain_graph: bool=False):
    self.optim[module_name].zero_grad()
    loss.backward(retain_graph=retain_graph)

    if self.config.hp.grad_clipping.has(module_name):
        grad_clip_val = self.config.hp.grad_clipping.has(module_name)
        grad_norm = clip_grad_norm_(self.get_parameters(module_name), grad_clip_val)
        self.writer.add_scalar(f'grad_norms/...', grad_norm, self.num_iters_done)

    self.optim[module_name].step()
```

firelab's `Config.has(key)` is a membership test returning a Python `bool`.
The source assigns that *bool* to `grad_clip_val`, and
`torch.nn.utils.clip_grad_norm_` coerces its `max_norm` argument to a float,
so `True` becomes the clipping threshold `1.0` — the configured threshold
value stored under the key is never read here. -/

/-- The `grad_clipping` config section: configured per-submodule thresholds. -/
def config_has (grad_clipping : List (String × ℚ)) (name : String) : Bool :=
  (List.lookup name grad_clipping).isSome

/-- The clipping behaviour of one `perform_optim_step` call: either
`clip_grad_norm_` is invoked with the given `max_norm`, or clipping is
skipped entirely. -/
inductive OptimStepClipAction
  | clipped (max_norm : ℚ)
  | skipped
deriving DecidableEq, Repr

/-- Shallow embedding of the clipping branch of `perform_optim_step`. -/
def perform_optim_step_clip (grad_clipping : List (String × ℚ))
    (module_name : String) : OptimStepClipAction :=
  if config_has grad_clipping module_name then
    OptimStepClipAction.clipped (pyFloatOfBool (config_has grad_clipping module_name))
  else
    OptimStepClipAction.skipped

/-! ## Helper lemmas -/

/-- Componentwise squared difference of a vector with itself is the zero
vector. -/
lemma zipWith_sub_sq_self (w : List ℚ) :
    List.zipWith (fun c p => (c - p) ^ 2) w w = List.replicate w.length 0 := by
  induction w with
  | nil => rfl
  | cons a t ih => simp [List.replicate_succ, ih, sub_self]

/-- Dotting the zero vector with anything gives zero. -/
lemma dot_replicate_zero_left (n : ℕ) : ∀ l : List ℚ, dot (List.replicate n 0) l = 0 := by
  induction n with
  | zero => intro l; simp [dot]
  | succ m ih =>
    intro l
    cases l with
    | nil => simp [dot]
    | cons b t =>
      have h := ih t
      simp only [dot, List.replicate_succ, List.zipWith_cons_cons, List.sum_cons,
        zero_mul, zero_add] at h ⊢
      exact h

/-- The early-return guard of `generator_step` passes exactly on iteration
counters that are multiples of `num_discr_steps_per_gen_step`. -/
lemma generator_step_runs_iff (x k : ℕ) :
    generator_step_runs x k = true ↔ x % k = 0 := by
  by_cases h : x % k = 0 <;> simp [generator_step_runs, h]

/-! ## Claims -/

/-- Claim C7 (confirmed): the generator's knowledge-distillation loss returns
exactly `0` whenever the learned-classes set is empty (first task), for any
configured `distill_batch_size` and any teacher/student generator outputs. -/
theorem gen_distill_zero_when_no_learned_classes (distill_batch_size : ℤ)
    (teacher_row student_row : ℕ → List ℚ) :
    gen_knowledge_distillation_loss [] distill_batch_size teacher_row student_row =
      DistillLossResult.ok 0 := rfl

/-- Claim C8 (confirmed): the EWC regularization term is `0` whenever the
current flattened parameter vector equals the stored previous-task snapshot,
for any head size, any importance (Fisher) vector, any `keep_prob`, and any
realization of the dropout mask. -/
theorem ewc_reg_zero_at_snapshot (head_size : ℕ) (keep_prob : ℚ)
    (dropMask : List Bool) (fisher w : List ℚ) :
    compute_regularization head_size keep_prob dropMask fisher w w = 0 := by
  unfold compute_regularization
  rw [zipWith_sub_sq_self]
  exact dot_replicate_zero_left _ _

/-- Claim C1 (code_bug): with `distill_batch_size = 3` and four learned
classes, `num_samples_per_class = 3 // 4 = 0`, and the source's assertion
`num_samples_per_class >= 0` *passes* (it is vacuous for non-negative batch
sizes), so the computation proceeds with an empty distillation batch and
averages an empty tensor (NaN) instead of hard-stopping as the spec
requires. -/
theorem gen_distill_small_batch_not_assert :
    gen_knowledge_distillation_loss [0, 1, 2, 3] 3 (fun _ => [0]) (fun _ => [0]) =
      DistillLossResult.nanLoss ∧
    ∀ msg : String,
      gen_knowledge_distillation_loss [0, 1, 2, 3] 3 (fun _ => [0]) (fun _ => [0]) ≠
        DistillLossResult.assertError msg := by
  have key : gen_knowledge_distillation_loss [0, 1, 2, 3] 3 (fun _ => [0]) (fun _ => [0]) =
      DistillLossResult.nanLoss := by decide
  refine ⟨key, fun msg h => ?_⟩
  rw [key] at h
  exact DistillLossResult.noConfusion h

/-- Claim C2 (code_bug): evaluation of `compute_regularization` at
`head_size = 1`, `keep_prob = 1/4`, body importance `[1]`, head importance
`[1]`, squared parameter drift `[4, 0]`, with the single body component
*kept* by the dropout mask.  The source passes `keep_prob` as `F.dropout`'s
drop probability, so the kept body component is rescaled by
`1/(1 - 1/4) = 4/3` and the term evaluates to `16/3` — not the `16` that the
claimed rescaling by `1/keep_prob = 4` would give. -/
theorem ewc_dropout_scaling_evaluation :
    compute_regularization 1 (1/4) [false] [1, 1] [2, 0] [0, 0] = 16/3 ∧
    (16/3 : ℚ) ≠ (1 / (1/4)) * 2 ^ 2 := by
  constructor
  · norm_num [compute_regularization, dot, F_dropout, pyDropLast, pyTakeLast]
  · norm_num

/-- Claim C4 (code_bug): evaluation of the clipping branch of
`perform_optim_step`.  With a configured threshold of `10` for
`"discriminator"`, the source assigns `grad_clip_val` the *boolean* result of
`config.hp.grad_clipping.has('discriminator')`, which `clip_grad_norm_`
coerces to the float `1.0`: the gradient norm is clipped to `1`, never to the
configured `10`.  With no threshold configured, clipping is skipped (that
part of the claim holds). -/
theorem optim_step_clip_value_evaluation :
    perform_optim_step_clip [("discriminator", 10)] "discriminator" =
      OptimStepClipAction.clipped 1 ∧
    OptimStepClipAction.clipped (1 : ℚ) ≠ OptimStepClipAction.clipped 10 ∧
    perform_optim_step_clip [] "discriminator" = OptimStepClipAction.skipped := by
  refine ⟨rfl, by decide, rfl⟩

/-- Claim C3 (counterexample): on a GAN-phase batch where the generator
update is not skipped (epoch `0 < num_gan_epochs = 1`, iteration `0` with
`num_discr_steps_per_gen_step = 1`), `train_on_batch` executes the generator
step *first* and the discriminator step *second*, so the discriminator
update does not precede the generator update. -/
theorem gan_batch_order_counterexample :
    train_on_batch ⟨1, 1, false, 0⟩ ⟨0, 0⟩ =
      [TrainStep.generatorStep, TrainStep.discriminatorStep] ∧
    TrainStep.discriminatorStep ∈ train_on_batch ⟨1, 1, false, 0⟩ ⟨0, 0⟩ ∧
    TrainStep.generatorStep ∈ train_on_batch ⟨1, 1, false, 0⟩ ⟨0, 0⟩ ∧
    ¬ ((train_on_batch ⟨1, 1, false, 0⟩ ⟨0, 0⟩).indexOf TrainStep.discriminatorStep <
        (train_on_batch ⟨1, 1, false, 0⟩ ⟨0, 0⟩).indexOf TrainStep.generatorStep) := by
  decide

/-- Claim C3 (amended, proved): for every GAN-phase batch, the generator
update (when not skipped by its iteration guard) is executed *before* the
discriminator update of the same batch, and the discriminator update runs on
every GAN-phase batch. -/
theorem gan_batch_generator_first (hp : TrainHP) (st : TrainerState)
    (h : st.num_epochs_done < hp.num_gan_epochs) :
    (train_on_batch hp st = [TrainStep.generatorStep, TrainStep.discriminatorStep] ∨
      train_on_batch hp st = [TrainStep.discriminatorStep]) ∧
    TrainStep.discriminatorStep ∈ train_on_batch hp st ∧
    (TrainStep.generatorStep ∈ train_on_batch hp st →
      (train_on_batch hp st).indexOf TrainStep.generatorStep <
        (train_on_batch hp st).indexOf TrainStep.discriminatorStep) := by
  unfold train_on_batch
  rw [if_pos h]
  cases h2 : generator_step_runs st.num_iters_done hp.num_discr_steps_per_gen_step <;>
    simp

/-- Witness for `gan_batch_generator_first` at a concrete GAN-phase state. -/
theorem gan_batch_generator_first_witness :
    (0 : ℕ) < 1 ∧
    ((train_on_batch ⟨1, 3, false, 0⟩ ⟨0, 3⟩ =
        [TrainStep.generatorStep, TrainStep.discriminatorStep] ∨
      train_on_batch ⟨1, 3, false, 0⟩ ⟨0, 3⟩ = [TrainStep.discriminatorStep]) ∧
     TrainStep.discriminatorStep ∈ train_on_batch ⟨1, 3, false, 0⟩ ⟨0, 3⟩ ∧
     (TrainStep.generatorStep ∈ train_on_batch ⟨1, 3, false, 0⟩ ⟨0, 3⟩ →
       (train_on_batch ⟨1, 3, false, 0⟩ ⟨0, 3⟩).indexOf TrainStep.generatorStep <
         (train_on_batch ⟨1, 3, false, 0⟩ ⟨0, 3⟩).indexOf TrainStep.discriminatorStep)) :=
  ⟨by decide, gan_batch_generator_first ⟨1, 3, false, 0⟩ ⟨0, 3⟩ (by decide)⟩

/-- Claim C9 (confirmed): on GAN-phase batches (with a positive
`num_discr_steps_per_gen_step`, as the config contract requires), the
generator update is performed exactly on iterations whose counter is `0`
modulo `num_discr_steps_per_gen_step`, and skipped on all others — both for
the early-return guard of `generator_step` itself and for the batch trace. -/
theorem generator_step_modulus (hp : TrainHP) (st : TrainerState)
    (hk : 1 ≤ hp.num_discr_steps_per_gen_step)
    (hphase : st.num_epochs_done < hp.num_gan_epochs) :
    (generator_step_runs st.num_iters_done hp.num_discr_steps_per_gen_step = true ↔
      st.num_iters_done % hp.num_discr_steps_per_gen_step = 0) ∧
    (TrainStep.generatorStep ∈ train_on_batch hp st ↔
      st.num_iters_done % hp.num_discr_steps_per_gen_step = 0) := by
  refine ⟨generator_step_runs_iff _ _, ?_⟩
  rw [← generator_step_runs_iff st.num_iters_done hp.num_discr_steps_per_gen_step]
  unfold train_on_batch
  rw [if_pos hphase]
  cases h2 : generator_step_runs st.num_iters_done hp.num_discr_steps_per_gen_step <;>
    simp [h2]

/-- Witness for `generator_step_modulus` with
`num_discr_steps_per_gen_step = 3` at iteration `6`. -/
theorem generator_step_modulus_witness :
    1 ≤ 3 ∧ (0 : ℕ) < 1 ∧
    ((generator_step_runs 6 3 = true ↔ 6 % 3 = 0) ∧
      (TrainStep.generatorStep ∈ train_on_batch ⟨1, 3, false, 0⟩ ⟨0, 6⟩ ↔ 6 % 3 = 0)) :=
  ⟨by decide, by decide,
    generator_step_modulus ⟨1, 3, false, 0⟩ ⟨0, 6⟩ (by decide) (by decide)⟩

/-- Claim C5 (counterexample): a first-task trainer (task index `0`, so
`get_previous_trainer` returns none) configured with the unknown strategy
`"foobar"` initializes *without* any error and happily processes a batch:
the strategy name is only validated when a previous trainer exists. -/
theorem unknown_strategy_first_task_ok :
    trainer_run ⟨"foobar", false⟩ ⟨1, 1, false, 0⟩ 0 [⟨0, 0⟩] =
      Except.ok [[TrainStep.generatorStep, TrainStep.discriminatorStep]] ∧
    InitAction.raiseUnknownStrategy ∉ after_init_hook_actions ⟨"foobar", false⟩ 0 :=
  ⟨rfl, by decide⟩

/-- Claim C5 (amended, proved): on tasks that have a previous trainer (task
index `> 0`), an unknown regularization-strategy name (neither `"mas"` nor
`"ewc"`) raises the fatal `NotImplementedError` inside the initialization
hook, so no training batch is ever processed. -/
theorem unknown_strategy_error_with_prev_trainer (ihp : InitHP) (thp : TrainHP)
    (task_idx : ℕ) (batches : List TrainerState)
    (hmas : ihp.reg_strategy ≠ "mas") (hewc : ihp.reg_strategy ≠ "ewc")
    (htask : 0 < task_idx) :
    InitAction.raiseUnknownStrategy ∈ after_init_hook_actions ihp task_idx ∧
    trainer_run ihp thp task_idx batches =
      Except.error ("Unknown regularization strategy: " ++ ihp.reg_strategy) := by
  have hnone : get_previous_trainer_is_none task_idx = false := by
    simp [get_previous_trainer_is_none]
    omega
  have hmem : InitAction.raiseUnknownStrategy ∈ after_init_hook_actions ihp task_idx := by
    simp [after_init_hook_actions, hnone, if_neg hmas, if_neg hewc]
  refine ⟨hmem, ?_⟩
  unfold trainer_run
  rw [if_pos hmem]

/-- Witness for `unknown_strategy_error_with_prev_trainer` at task index `1`
with strategy `"foobar"`. -/
theorem unknown_strategy_error_with_prev_trainer_witness :
    ("foobar" : String) ≠ "mas" ∧ ("foobar" : String) ≠ "ewc" ∧ (0 : ℕ) < 1 ∧
    (InitAction.raiseUnknownStrategy ∈ after_init_hook_actions ⟨"foobar", false⟩ 1 ∧
      trainer_run ⟨"foobar", false⟩ ⟨1, 1, false, 0⟩ 1 [] =
        Except.error ("Unknown regularization strategy: " ++ "foobar")) :=
  ⟨by decide, by decide, by decide,
    unknown_strategy_error_with_prev_trainer ⟨"foobar", false⟩ ⟨1, 1, false, 0⟩ 1 []
      (by decide) (by decide) (by decide)⟩

/-- Claim C6 (counterexample): at task index `0` (the first task) the
initialization hook *does* take the frozen-teacher snapshot — it is in fact
its very first action, performed unconditionally before the
previous-trainer check. -/
theorem prev_model_snapshot_first_task :
    InitAction.snapshotPrevModel ∈ after_init_hook_actions ⟨"ewc", false⟩ 0 ∧
    (after_init_hook_actions ⟨"ewc", false⟩ 0).head? =
      some InitAction.snapshotPrevModel := by
  decide

/-- Claim C6 (amended, proved): the frozen-teacher snapshot (deep copy of
all model weights into `prev_model`) is taken during initialization on
*every* task, the first included — it is always the first init action. -/
theorem prev_model_snapshot_every_task (hp : InitHP) (task_idx : ℕ) :
    (after_init_hook_actions hp task_idx).head? = some InitAction.snapshotPrevModel ∧
    InitAction.snapshotPrevModel ∈ after_init_hook_actions hp task_idx := by
  constructor <;> simp [after_init_hook_actions]

/-- Claim C10 (confirmed): `train_on_batch` never executes the creativity
step (its call is commented out in the source): every batch trace is either
generator-then-discriminator, discriminator only, or classifier only, and
the trace is unchanged under any setting of the `creativity.*` configuration
block. -/
theorem creativity_step_never_run (hp : TrainHP) (st : TrainerState)
    (b : Bool) (n : ℕ) :
    TrainStep.creativityStep ∉ train_on_batch hp st ∧
    (train_on_batch hp st = [TrainStep.generatorStep, TrainStep.discriminatorStep] ∨
      train_on_batch hp st = [TrainStep.discriminatorStep] ∨
      train_on_batch hp st = [TrainStep.classifierStep]) ∧
    train_on_batch { hp with creativity_enabled := b, creativity_start_iter := n } st =
      train_on_batch hp st := by
  refine ⟨?_, ?_, rfl⟩ <;>
  · unfold train_on_batch
    by_cases h1 : st.num_epochs_done < hp.num_gan_epochs <;>
      cases h2 : generator_step_runs st.num_iters_done hp.num_discr_steps_per_gen_step <;>
      simp [h1, h2]

end Czsl
